import Mathlib

/-!
Verification of the IceRink module (src/EnergyPlus/IndoorIceRink.cc and
IndoorIceRink.hh) against its natural-language specification.

The C++ double arithmetic is embedded as real-number arithmetic.  External
collaborators (schedule lookup, node state, surface heat-balance arrays,
fluid property database) are supplied through an explicit Env record; the
module-level data of one direct or indirect refrigeration system is a
record mirroring DirectRefrigSysData and IndirectRefrigSysData.  Reads of
uninitialized C++ locals are modelled by explicit junk fields of Env.
-/

set_option maxHeartbeats 1000000

noncomputable section

namespace IceRink

/-! ### Module parameter definitions (IndoorIceRink.cc lines 56 to 96) -/

/-- System type constant DirectSystem, line 58. -/
def DirectSystem : ℤ := 1

/-- System type constant IndirectSystem, line 59. -/
def IndirectSystem : ℤ := 2

/-- Brine type constant CaCl2 (calcium chloride solution), line 62. -/
def CaCl2 : ℤ := 1

/-- Brine type constant EG (ethylene glycol solution), line 63. -/
def EG : ℤ := 2

/-- Control type constant SurfaceTempControl, line 66. -/
def SurfaceTempControl : ℤ := 1

/-- Control type constant BrineOutletTempControl, line 67. -/
def BrineOutletTempControl : ℤ := 2

/-- Operating mode value NotOperating, line 72. -/
def NotOperating : ℤ := 0

/-- Operating mode value CoolingMode, line 73. -/
def CoolingMode : ℤ := 2

/-! ### One-based table access and the temperature index scan

The property tables are ObjexxFCL Array1D values with one-based indexing;
tbl gives the same one-based read on a Lean list (out-of-range reads,
which the source never performs on the paths modelled here, default to 0).
-/

/-- One-based table lookup, mirroring Array1D element access. -/
def tbl (xs : List ℝ) (n : ℕ) : ℝ := xs.getD (n - 1) 0

/-- The while loop scanning for the first one-based index whose grid value
exceeds the query temperature (lines 889 to 893, 1071 to 1075, 1704 to
1708 of the source); i is the running index, and the scan returns i plus
the list length when no entry exceeds the temperature. -/
def findIndex1 (T : ℝ) : List ℝ → ℕ → ℕ
  | [], i => i
  | t :: ts, i => if T < t then i else findIndex1 T ts (i + 1)

/-- One property interpolation, mirroring the three-way branch on the
scanned index (lines 896 to 913 of the source): index 1 clamps to the
first row, index beyond the table clamps to the last row, and interior
indices interpolate linearly between rows Index - 1 and Index. -/
def interpProp (temps vals : List ℝ) (T : ℝ) : ℝ :=
  let i := findIndex1 T temps 1
  if i = 1 then tbl vals 1
  else if temps.length < i then tbl vals temps.length
  else
    tbl vals (i - 1) +
      (T - tbl temps (i - 1)) / (tbl temps i - tbl temps (i - 1)) *
        (tbl vals i - tbl vals (i - 1))

/-- The four fluid properties produced by one table block of the source. -/
structure FluidProps where
  mu : ℝ
  k : ℝ
  pr : ℝ
  cp : ℝ

/-- The shared 11-point temperature grid (the source repeats this list as
Temps at line 864, Temperatures at line 958 and Temps at line 1681; the
source writes the entries with trailing zeros, for example -10.00). -/
def rinkTempGrid : List ℝ :=
  [-10, -9, -8, -7, -6, -5, -4, -3, -2, -1, 0]

/-- Water viscosity table Mu, lines 865 to 867. -/
def waterMuTbl : List ℝ :=
  [0.0001903, 0.0001881, 0.000186, 0.0001839, 0.0001818, 0.0001798,
   0.0001778, 0.0001759, 0.000174, 0.0001721, 0.0001702]

/-- Water conductivity table, lines 869 to 870. -/
def waterCondTbl : List ℝ :=
  [0.5902, 0.5871, 0.584, 0.5809, 0.5778, 0.5747, 0.5717, 0.5686, 0.5655,
   0.5625, 0.5594]

/-- Water Prandtl number table Pr, line 871. -/
def waterPrTbl : List ℝ :=
  [1.471, 1.464, 1.456, 1.449, 1.442, 1.436, 1.429, 1.423, 1.416, 1.41,
   1.404]

/-- Water specific heat table Cp, lines 872 to 873. -/
def waterCpTbl : List ℝ :=
  [4563, 4568, 4573, 4578, 4583, 4589, 4594, 4599, 4604, 4610, 4615]

/-- Interpolated water viscosity MUactual at a query temperature. -/
def waterMuAt (T : ℝ) : ℝ := interpProp rinkTempGrid waterMuTbl T

/-- Interpolated water conductivity Kactual at a query temperature. -/
def waterKAt (T : ℝ) : ℝ := interpProp rinkTempGrid waterCondTbl T

/-- Interpolated water Prandtl number PRactual at a query temperature. -/
def waterPrAt (T : ℝ) : ℝ := interpProp rinkTempGrid waterPrTbl T

/-- Interpolated water specific heat Cpactual at a query temperature. -/
def waterCpAt (T : ℝ) : ℝ := interpProp rinkTempGrid waterCpTbl T

/-- The water property block of CalcDRinkHXEffectTerm (lines 888 to 913);
the source computes the index once and applies the same three-way branch
to all four tables, which coincides with interpolating each table at the
shared index. -/
def waterPropsAt (T : ℝ) : FluidProps :=
  ⟨waterMuAt T, waterKAt T, waterPrAt T, waterCpAt T⟩

/-- The reference linear-interpolation value between grid rows k and k+1,
in the form used by the specification text. -/
def interpVal (vals : List ℝ) (k : ℕ) (T : ℝ) : ℝ :=
  tbl vals k +
    (T - tbl rinkTempGrid k) / (tbl rinkTempGrid (k + 1) - tbl rinkTempGrid k) *
      (tbl vals (k + 1) - tbl vals k)

/-! ### Invariants of the index scan -/

lemma findIndex1_lb (T : ℝ) : ∀ (ts : List ℝ) (i : ℕ), i ≤ findIndex1 T ts i := by
  intro ts
  induction ts with
  | nil => intro i; simp [findIndex1]
  | cons t ts ih =>
      intro i
      simp only [findIndex1]
      split
      · exact le_rfl
      · exact le_trans (Nat.le_succ i) (ih (i + 1))

lemma findIndex1_ub (T : ℝ) : ∀ (ts : List ℝ) (i : ℕ),
    findIndex1 T ts i ≤ i + ts.length := by
  intro ts
  induction ts with
  | nil => intro i; simp [findIndex1]
  | cons t ts ih =>
      intro i
      simp only [findIndex1, List.length_cons]
      split
      · exact Nat.le_add_right i (ts.length + 1)
      · calc findIndex1 T ts (i + 1) ≤ i + 1 + ts.length := ih (i + 1)
          _ = i + (ts.length + 1) := by omega

/-- When the scan breaks before exhausting the list, the element it broke
at exceeds the query temperature. -/
lemma findIndex1_break (T : ℝ) : ∀ (ts : List ℝ) (i : ℕ),
    findIndex1 T ts i < i + ts.length → T < ts.getD (findIndex1 T ts i - i) 0 := by
  intro ts
  induction ts with
  | nil => intro i h; simp [findIndex1] at h
  | cons t ts ih =>
      intro i h
      simp only [findIndex1] at h ⊢
      by_cases hTt : T < t
      · simp only [if_pos hTt]
        simp [hTt]
      · simp only [if_neg hTt] at h ⊢
        simp only [List.length_cons] at h
        have hlb : i + 1 ≤ findIndex1 T ts (i + 1) := findIndex1_lb T ts (i + 1)
        have hub : findIndex1 T ts (i + 1) - i = (findIndex1 T ts (i + 1) - (i + 1)) + 1 := by
          omega
        rw [hub]
        simp only [List.getD_cons_succ]
        exact ih (i + 1) (by omega)

/-- Every element strictly before the break position is at most the query
temperature. -/
lemma findIndex1_before (T : ℝ) : ∀ (ts : List ℝ) (i p : ℕ),
    p < findIndex1 T ts i - i → p < ts.length → ts.getD p 0 ≤ T := by
  intro ts
  induction ts with
  | nil => intro i p h hp; simp at hp
  | cons t ts ih =>
      intro i p h hp
      simp only [findIndex1] at h
      by_cases hTt : T < t
      · simp [if_pos hTt] at h
      · simp only [if_neg hTt] at h
        cases p with
        | zero => simpa using le_of_not_lt hTt
        | succ q =>
            simp only [List.getD_cons_succ]
            exact ih (i + 1) q (by omega) (by simpa using hp)

/-! ### Characterization of the scan on the rink temperature grid -/

lemma rinkTempGrid_length : rinkTempGrid.length = 11 := by
  simp [rinkTempGrid]

lemma tbl_rinkTempGrid (n : ℕ) (h1 : 1 ≤ n) (h2 : n ≤ 11) :
    tbl rinkTempGrid n = (n : ℝ) - 11 := by
  interval_cases n <;> norm_num [tbl, rinkTempGrid]

lemma rinkIndex_below {T : ℝ} (h : T < -10) : findIndex1 T rinkTempGrid 1 = 1 := by
  simp only [rinkTempGrid, findIndex1]
  rw [if_pos (by exact_mod_cast h)]

lemma rinkIndex_top {T : ℝ} (h : 0 ≤ T) : findIndex1 T rinkTempGrid 1 = 12 := by
  simp only [rinkTempGrid, findIndex1]
  rw [if_neg (by linarith), if_neg (by linarith), if_neg (by linarith),
    if_neg (by linarith), if_neg (by linarith), if_neg (by linarith),
    if_neg (by linarith), if_neg (by linarith), if_neg (by linarith),
    if_neg (by linarith), if_neg (by linarith)]

lemma rinkIndex_inside {T : ℝ} {k : ℕ} (hk1 : 1 ≤ k) (hk2 : k ≤ 10)
    (h1 : tbl rinkTempGrid k ≤ T) (h2 : T < tbl rinkTempGrid (k + 1)) :
    findIndex1 T rinkTempGrid 1 = k + 1 := by
  have hlb : 1 ≤ findIndex1 T rinkTempGrid 1 := findIndex1_lb T rinkTempGrid 1
  have hub : findIndex1 T rinkTempGrid 1 ≤ 12 := by
    have := findIndex1_ub T rinkTempGrid 1
    simpa [rinkTempGrid_length] using this
  rcases lt_trichotomy (findIndex1 T rinkTempGrid 1) (k + 1) with hlt | heq | hgt
  · exfalso
    -- the break element is a row at or before row k, which is at most T
    have hbreak := findIndex1_break T rinkTempGrid 1
      (by rw [rinkTempGrid_length]; omega)
    have hget : rinkTempGrid.getD (findIndex1 T rinkTempGrid 1 - 1) 0 =
        tbl rinkTempGrid (findIndex1 T rinkTempGrid 1) := by
      simp [tbl]
    rw [hget] at hbreak
    rw [tbl_rinkTempGrid _ hlb (by omega)] at hbreak
    rw [tbl_rinkTempGrid k hk1 (by omega)] at h1
    have hjk : ((findIndex1 T rinkTempGrid 1 : ℕ) : ℝ) ≤ (k : ℝ) := by
      exact_mod_cast Nat.le_of_lt_succ hlt
    linarith
  · exact heq
  · exfalso
    -- position k (zero-based) lies before the break, so row k+1 is at most T
    have hbefore := findIndex1_before T rinkTempGrid 1 k (by omega)
      (by rw [rinkTempGrid_length]; omega)
    have hget : rinkTempGrid.getD k 0 = tbl rinkTempGrid (k + 1) := by
      simp [tbl]
    rw [hget] at hbefore
    linarith

/-! ### Clamping and interpolation facts for the interpolation routine -/

lemma interpProp_below (vals : List ℝ) {T : ℝ} (h : T < -10) :
    interpProp rinkTempGrid vals T = tbl vals 1 := by
  simp [interpProp, rinkIndex_below h]

lemma interpProp_top (vals : List ℝ) {T : ℝ} (h : 0 ≤ T) :
    interpProp rinkTempGrid vals T = tbl vals 11 := by
  simp [interpProp, rinkIndex_top h, rinkTempGrid_length]

lemma interpProp_inside (vals : List ℝ) {T : ℝ} {k : ℕ} (hk1 : 1 ≤ k)
    (hk2 : k ≤ 10) (h1 : tbl rinkTempGrid k ≤ T)
    (h2 : T < tbl rinkTempGrid (k + 1)) :
    interpProp rinkTempGrid vals T = interpVal vals k T := by
  simp only [interpProp, rinkIndex_inside hk1 hk2 h1 h2, interpVal]
  rw [if_neg (by omega), if_neg (by rw [rinkTempGrid_length]; omega)]
  simp

lemma rinkGrid_step {k : ℕ} (hk1 : 1 ≤ k) (hk2 : k ≤ 10) :
    tbl rinkTempGrid k < tbl rinkTempGrid (k + 1) := by
  rw [tbl_rinkTempGrid k hk1 (by omega), tbl_rinkTempGrid (k + 1) (by omega) (by omega)]
  push_cast
  linarith

lemma interpProp_gridpoint (vals : List ℝ) {i : ℕ} (h1 : 1 ≤ i) (h2 : i ≤ 11) :
    interpProp rinkTempGrid vals (tbl rinkTempGrid i) = tbl vals i := by
  rcases Nat.lt_or_ge i 11 with hlt | hge
  · have step := rinkGrid_step h1 (by omega)
    rw [interpProp_inside vals h1 (by omega) le_rfl step]
    simp [interpVal]
  · have hi : i = 11 := by omega
    subst hi
    rw [interpProp_top vals (by rw [tbl_rinkTempGrid 11 (by omega) le_rfl]; norm_num)]

/-- Interpolated values stay positive when the whole table is positive. -/
lemma interpProp_pos (vals : List ℝ)
    (hpos : ∀ p, p < 11 → 0 < vals.getD p 0) (T : ℝ) :
    0 < interpProp rinkTempGrid vals T := by
  have hlb : 1 ≤ findIndex1 T rinkTempGrid 1 := findIndex1_lb T rinkTempGrid 1
  have hub : findIndex1 T rinkTempGrid 1 ≤ 12 := by
    have := findIndex1_ub T rinkTempGrid 1
    simpa [rinkTempGrid_length] using this
  set j := findIndex1 T rinkTempGrid 1 with hj
  unfold interpProp
  rw [← hj]
  by_cases hj1 : j = 1
  · rw [if_pos hj1]
    exact hpos 0 (by omega)
  · rw [if_neg hj1]
    by_cases hj12 : rinkTempGrid.length < j
    · rw [if_pos hj12]
      exact hpos 10 (by omega)
    · rw [if_neg hj12]
      rw [rinkTempGrid_length] at hj12
      have hj2 : 2 ≤ j := by omega
      have hj11 : j ≤ 11 := by omega
      -- scan invariants give grid row j - 1 at most T and T below grid row j
      have hbreak := findIndex1_break T rinkTempGrid 1
        (by rw [← hj, rinkTempGrid_length]; omega)
      rw [← hj] at hbreak
      have hbreak2 : T < tbl rinkTempGrid j := by
        have hget : rinkTempGrid.getD (j - 1) 0 = tbl rinkTempGrid j := by simp [tbl]
        rwa [hget] at hbreak
      have hbefore := findIndex1_before T rinkTempGrid 1 (j - 2)
        (by omega) (by rw [rinkTempGrid_length]; omega)
      have hbefore2 : tbl rinkTempGrid (j - 1) ≤ T := by
        have hget : rinkTempGrid.getD (j - 2) 0 = tbl rinkTempGrid (j - 1) := by
          simp only [tbl]
          congr 1
        rwa [hget] at hbefore
      have hstep : tbl rinkTempGrid j - tbl rinkTempGrid (j - 1) = 1 := by
        rw [tbl_rinkTempGrid j (by omega) hj11,
          tbl_rinkTempGrid (j - 1) (by omega) (by omega)]
        have : ((j - 1 : ℕ) : ℝ) = (j : ℝ) - 1 := by
          have : (1 : ℕ) ≤ j := by omega
          push_cast [Nat.cast_sub this]
          ring
        rw [this]; ring
      set f := (T - tbl rinkTempGrid (j - 1)) / (tbl rinkTempGrid j - tbl rinkTempGrid (j - 1)) with hf
      have hf0 : 0 ≤ f := by
        rw [hf, hstep, div_one]
        linarith
      have hf1 : f < 1 := by
        rw [hf, hstep, div_one]
        linarith
      have hv : 0 < tbl vals (j - 1) := by
        have := hpos (j - 2) (by omega)
        have hget : vals.getD (j - 2) 0 = tbl vals (j - 1) := by
          simp only [tbl]
          congr 1
        rwa [hget] at this
      have hw : 0 < tbl vals j := by
        have := hpos (j - 1) (by omega)
        have hget : vals.getD (j - 1) 0 = tbl vals j := by simp [tbl]
        rwa [hget] at this
      have key : 0 < tbl vals (j - 1) + f * (tbl vals j - tbl vals (j - 1)) := by
        nlinarith [mul_nonneg hf0 hw.le, mul_pos hv (sub_pos.mpr hf1)]
      exact key

/-- Positivity of every one-based table entry follows from positivity of
every list member. -/
lemma getD_pos_of_mem {vals : List ℝ} (hlen : vals.length = 11)
    (h : ∀ x ∈ vals, 0 < x) : ∀ p, p < 11 → 0 < vals.getD p 0 := by
  intro p hp
  have hp2 : p < vals.length := by omega
  rw [List.getD_eq_getElem vals 0 hp2]
  exact h _ (List.getElem_mem hp2)

/-! ### Claim C8: the fluid property interpolation -/

/-- Claim C8: the fluid property lookup never fails (it is a total
function): temperatures below the lowest tabulated temperature return the
lowest grid row of every table, temperatures at or above the top of the
grid return the top row, temperatures strictly inside the grid return the
linear interpolation between the two adjacent rows, and the interpolated
values at the grid points match the tabulated values exactly. -/
theorem property_interpolation_spec (T : ℝ) :
    (T < -10 → waterPropsAt T = ⟨0.0001903, 0.5902, 1.471, 4563⟩) ∧
    (0 ≤ T → waterPropsAt T = ⟨0.0001702, 0.5594, 1.404, 4615⟩) ∧
    (∀ k : ℕ, 1 ≤ k → k ≤ 10 → tbl rinkTempGrid k ≤ T → T < tbl rinkTempGrid (k + 1) →
      waterPropsAt T =
        ⟨interpVal waterMuTbl k T, interpVal waterCondTbl k T,
         interpVal waterPrTbl k T, interpVal waterCpTbl k T⟩) ∧
    (∀ i : ℕ, 1 ≤ i → i ≤ 11 →
      waterPropsAt (tbl rinkTempGrid i) =
        ⟨tbl waterMuTbl i, tbl waterCondTbl i, tbl waterPrTbl i, tbl waterCpTbl i⟩) := by
  refine ⟨?_, ?_, ?_, ?_⟩
  · intro h
    simp only [waterPropsAt, waterMuAt, waterKAt, waterPrAt, waterCpAt,
      interpProp_below _ h]
    rfl
  · intro h
    simp only [waterPropsAt, waterMuAt, waterKAt, waterPrAt, waterCpAt,
      interpProp_top _ h]
    rfl
  · intro k hk1 hk2 h1 h2
    simp only [waterPropsAt, waterMuAt, waterKAt, waterPrAt, waterCpAt,
      interpProp_inside _ hk1 hk2 h1 h2]
  · intro i h1 h2
    simp only [waterPropsAt, waterMuAt, waterKAt, waterPrAt, waterCpAt,
      interpProp_gridpoint _ h1 h2]

/-- Claim C8 witness: concrete instances in all three regimes of the grid. -/
theorem property_interpolation_spec_witness :
    ((-12 : ℝ) < -10 ∧ waterPropsAt (-12) = ⟨0.0001903, 0.5902, 1.471, 4563⟩) ∧
    ((0 : ℝ) ≤ 5 ∧ waterPropsAt 5 = ⟨0.0001702, 0.5594, 1.404, 4615⟩) ∧
    (tbl rinkTempGrid 6 ≤ (-4.5 : ℝ) ∧ (-4.5 : ℝ) < tbl rinkTempGrid 7 ∧
      waterPropsAt (-4.5) =
        ⟨interpVal waterMuTbl 6 (-4.5), interpVal waterCondTbl 6 (-4.5),
         interpVal waterPrTbl 6 (-4.5), interpVal waterCpTbl 6 (-4.5)⟩) :=
  ⟨⟨by norm_num, (property_interpolation_spec (-12)).1 (by norm_num)⟩,
   ⟨by norm_num, (property_interpolation_spec 5).2.1 (by norm_num)⟩,
   show (-5 : ℝ) ≤ -4.5 by norm_num, show (-4.5 : ℝ) < -4 by norm_num,
   (property_interpolation_spec (-4.5)).2.2.1 6 (by norm_num) (by norm_num)
     (show (-5 : ℝ) ≤ -4.5 by norm_num) (show (-4.5 : ℝ) < -4 by norm_num)⟩

/-! ### Heat exchanger effectiveness model -/

/-- Reynolds number ReD (line 916, also lines 1196, 1331 and 1731 of the
source): 4 times the mass flow over pi times viscosity times the diameter
argument.  The source divides by no circuit count. -/
def hxReD (mu d m : ℝ) : ℝ := 4 * m / (Real.pi * mu * d)

/-- Nusselt number NuD with flow regime selection (lines 918 to 922): the
Colburn correlation at or above the laminar threshold 2300, the constant
surface temperature value 3.66 below it. -/
def hxNuD (re pr : ℝ) : ℝ :=
  if 2300 ≤ re then 0.023 * re ^ (0.8 : ℝ) * pr ^ ((1 : ℝ) / 3) else 3.66

/-- Number of transfer units NTU (line 924). -/
def hxNTU (k nu L m cp : ℝ) : ℝ := Real.pi * k * nu * L / (m * cp)

/-- The effectiveness Eff as a function of NTU (lines 925 to 931): 1 when
NTU exceeds the exponent cap 50, otherwise 1 minus the exponential of
minus NTU. -/
def effOfNTU (ntu : ℝ) : ℝ := if 50 < ntu then 1 else 1 - Real.exp (-ntu)

/-- The shared tail of CalcDRinkHXEffectTerm and CalcIRinkHXEffectTerm
(lines 915 to 933 and 1195 to 1210): Reynolds number, Nusselt number, NTU,
and the returned term Eff times mass flow times specific heat (the branch
for NTU above 50 returns mass flow times specific heat directly, which is
the same product with Eff equal to 1). -/
def hxEffectTerm (p : FluidProps) (m L d : ℝ) : ℝ :=
  let re := hxReD p.mu d m
  let nu := hxNuD re p.pr
  let ntu := hxNTU p.k nu L m p.cp
  if 50 < ntu then m * p.cp else (1 - Real.exp (-ntu)) * m * p.cp

/-- CalcDRinkHXEffectTerm (lines 842 to 934): water properties at the
inlet temperature followed by the effectiveness computation.  The SysNum
parameter of the source is unused in its body and is omitted here. -/
def calcDRinkHXEffectTerm (T m L d : ℝ) : ℝ :=
  hxEffectTerm (waterPropsAt T) m L d

/-- The Reynolds number computed inside CalcDRinkHXEffectTerm. -/
def dRinkReD (T m d : ℝ) : ℝ := hxReD (waterPropsAt T).mu d m

/-- The Nusselt number computed inside CalcDRinkHXEffectTerm. -/
def dRinkNuD (T m d : ℝ) : ℝ := hxNuD (dRinkReD T m d) (waterPropsAt T).pr

/-- The NTU computed inside CalcDRinkHXEffectTerm. -/
def dRinkNTU (T m L d : ℝ) : ℝ :=
  hxNTU (waterPropsAt T).k (dRinkNuD T m d) L m (waterPropsAt T).cp

/-- The effectiveness Eff computed inside CalcDRinkHXEffectTerm. -/
def dRinkEff (T m L d : ℝ) : ℝ := effOfNTU (dRinkNTU T m L d)

/-! ### Positivity of the interpolated water properties -/

lemma waterMu_pos (T : ℝ) : 0 < waterMuAt T :=
  interpProp_pos _ (getD_pos_of_mem (by norm_num [waterMuTbl])
    (by norm_num [waterMuTbl])) T

lemma waterK_pos (T : ℝ) : 0 < waterKAt T :=
  interpProp_pos _ (getD_pos_of_mem (by norm_num [waterCondTbl])
    (by norm_num [waterCondTbl])) T

lemma waterPr_pos (T : ℝ) : 0 < waterPrAt T :=
  interpProp_pos _ (getD_pos_of_mem (by norm_num [waterPrTbl])
    (by norm_num [waterPrTbl])) T

lemma waterCp_pos (T : ℝ) : 0 < waterCpAt T :=
  interpProp_pos _ (getD_pos_of_mem (by norm_num [waterCpTbl])
    (by norm_num [waterCpTbl])) T

/-! ### Elementary facts about the effectiveness function -/

lemma effOfNTU_le_one (x : ℝ) : effOfNTU x ≤ 1 := by
  unfold effOfNTU
  split
  · exact le_rfl
  · have := Real.exp_pos (-x)
    linarith

lemma effOfNTU_pos {x : ℝ} (h : 0 < x) : 0 < effOfNTU x := by
  unfold effOfNTU
  split
  · norm_num
  · have hlt : Real.exp (-x) < 1 := by
      rw [← Real.exp_zero]
      exact Real.exp_lt_exp.mpr (by linarith)
    linarith

lemma effOfNTU_mono {x y : ℝ} (h : x ≤ y) : effOfNTU x ≤ effOfNTU y := by
  by_cases hx : 50 < x <;> by_cases hy : 50 < y
  · simp [effOfNTU, hx, hy]
  · exact absurd (lt_of_lt_of_le hx h) hy
  · simp only [effOfNTU, if_neg hx, if_pos hy]
    have := Real.exp_pos (-x)
    linarith
  · simp only [effOfNTU, if_neg hx, if_neg hy]
    have := Real.exp_le_exp.mpr (neg_le_neg h)
    linarith

lemma dRinkReD_pos {T m d : ℝ} (hm : 0 < m) (hd : 0 < d) : 0 < dRinkReD T m d := by
  unfold dRinkReD hxReD
  have hmu : 0 < (waterPropsAt T).mu := waterMu_pos T
  have hpi := Real.pi_pos
  positivity

lemma dRinkNuD_pos {T m d : ℝ} (hm : 0 < m) (hd : 0 < d) : 0 < dRinkNuD T m d := by
  unfold dRinkNuD hxNuD
  split
  · have hre := dRinkReD_pos (T := T) hm hd
    have hpr : 0 < (waterPropsAt T).pr := waterPr_pos T
    exact mul_pos (mul_pos (by norm_num) (Real.rpow_pos_of_pos hre _))
      (Real.rpow_pos_of_pos hpr _)
  · norm_num

lemma dRinkNTU_pos {T m L d : ℝ} (hm : 0 < m) (hL : 0 < L) (hd : 0 < d) :
    0 < dRinkNTU T m L d := by
  unfold dRinkNTU hxNTU
  have h1 : 0 < (waterPropsAt T).k := waterK_pos T
  have h2 : 0 < (waterPropsAt T).cp := waterCp_pos T
  have h3 := dRinkNuD_pos (T := T) hm hd
  have hpi := Real.pi_pos
  positivity

/-- The effectiveness term is positive for positive flow and geometry. -/
lemma hxEffectTerm_pos {p : FluidProps} {m L d : ℝ} (hmu : 0 < p.mu)
    (hk : 0 < p.k) (hpr : 0 < p.pr) (hcp : 0 < p.cp) (hm : 0 < m)
    (hL : 0 < L) (hd : 0 < d) : 0 < hxEffectTerm p m L d := by
  have hre : 0 < hxReD p.mu d m := by
    unfold hxReD
    have hpi := Real.pi_pos
    positivity
  have hnu : 0 < hxNuD (hxReD p.mu d m) p.pr := by
    unfold hxNuD
    split
    · exact mul_pos (mul_pos (by norm_num) (Real.rpow_pos_of_pos hre _))
        (Real.rpow_pos_of_pos hpr _)
    · norm_num
  have hntu : 0 < hxNTU p.k (hxNuD (hxReD p.mu d m) p.pr) L m p.cp := by
    unfold hxNTU
    have hpi := Real.pi_pos
    positivity
  unfold hxEffectTerm
  simp only
  split
  · positivity
  · have hlt : Real.exp (-hxNTU p.k (hxNuD (hxReD p.mu d m) p.pr) L m p.cp) < 1 := by
      rw [← Real.exp_zero]
      exact Real.exp_lt_exp.mpr (by linarith)
    have h1 : (0 : ℝ) < 1 - Real.exp (-hxNTU p.k (hxNuD (hxReD p.mu d m) p.pr) L m p.cp) := by
      linarith
    positivity

lemma calcDRinkHXEffectTerm_pos {T m L d : ℝ} (hm : 0 < m) (hL : 0 < L)
    (hd : 0 < d) : 0 < calcDRinkHXEffectTerm T m L d :=
  hxEffectTerm_pos (waterMu_pos T) (waterK_pos T) (waterPr_pos T)
    (waterCp_pos T) hm hL hd

/-! ### Claim C7: the effectiveness model -/

/-- Claim C7: for positive mass flow (with the data model invariant that
tube length and diameter are positive), the returned effect term equals
the effectiveness times mass flow times specific heat, the effectiveness
equals 1 minus the exponential of minus NTU whenever NTU is at most 50 and
exactly 1 when NTU exceeds 50, it lies between 0 and 1, and as a function
of NTU it is monotonically non-decreasing. -/
theorem effectiveness_spec (T m L d : ℝ) (hm : 0 < m) (hL : 0 < L) (hd : 0 < d) :
    calcDRinkHXEffectTerm T m L d = dRinkEff T m L d * m * (waterPropsAt T).cp ∧
    (dRinkNTU T m L d ≤ 50 → dRinkEff T m L d = 1 - Real.exp (-dRinkNTU T m L d)) ∧
    (50 < dRinkNTU T m L d → dRinkEff T m L d = 1) ∧
    0 ≤ dRinkEff T m L d ∧ dRinkEff T m L d ≤ 1 ∧
    ∀ x y : ℝ, x ≤ y → effOfNTU x ≤ effOfNTU y := by
  have hntu := dRinkNTU_pos (T := T) hm hL hd
  refine ⟨?_, ?_, ?_, (effOfNTU_pos hntu).le, effOfNTU_le_one _,
    fun x y h => effOfNTU_mono h⟩
  · unfold calcDRinkHXEffectTerm hxEffectTerm dRinkEff effOfNTU dRinkNTU dRinkNuD dRinkReD
    simp only
    split <;> ring
  · intro h
    simp [dRinkEff, effOfNTU, not_lt.mpr h]
  · intro h
    simp [dRinkEff, effOfNTU, h]

/-- Claim C7 witness at a concrete positive flow and geometry. -/
theorem effectiveness_spec_witness :
    ((0 : ℝ) < 1 ∧ 0 ≤ dRinkEff (-12) 1 1 1) ∧ dRinkEff (-12) 1 1 1 ≤ 1 :=
  ⟨⟨by norm_num,
    ((effectiveness_spec (-12) 1 1 1 (by norm_num) (by norm_num) (by norm_num)).2.2.2).1⟩,
   ((effectiveness_spec (-12) 1 1 1 (by norm_num) (by norm_num) (by norm_num)).2.2.2).2.1⟩

/-! ### Brine property tables of CalcIRinkHXEffectTerm (lines 936 to 1348)

The concentration dispatch of the source compares with a genuine equality
only for concentrations 25 and 26; the conditions of the later branches
are assignments (Concentration = 27.00, = 28.00, = 29.00), so the branch
holding the 27 percent tables is taken for every concentration other than
25 and 26, and the table blocks for 28, 29 and 30 percent are dead code.
Only the reachable tables are transcribed.
-/

/-- Calcium chloride conductivity at 25 percent, lines 962 to 963. -/
def condCacl2C25 : List ℝ :=
  [0.5253, 0.5267, 0.5281, 0.5296, 0.531, 0.5324, 0.5338, 0.5352, 0.5366,
   0.5381, 0.5395]

/-- Calcium chloride conductivity at 26 percent, lines 964 to 965. -/
def condCacl2C26 : List ℝ :=
  [0.524, 0.5254, 0.5268, 0.5283, 0.5297, 0.5311, 0.5325, 0.5339, 0.5353,
   0.5367, 0.5381]

/-- Calcium chloride conductivity at 27 percent, lines 966 to 967. -/
def condCacl2C27 : List ℝ :=
  [0.5227, 0.5241, 0.5255, 0.5269, 0.5284, 0.5298, 0.5312, 0.5326, 0.534,
   0.5354, 0.5368]

/-- Calcium chloride viscosity at 25 percent, lines 975 to 976. -/
def muCacl2C25 : List ℝ :=
  [0.00553, 0.005353, 0.005184, 0.005023, 0.004869, 0.004722, 0.004582,
   0.004447, 0.004319, 0.004197, 0.004079]

/-- Calcium chloride viscosity at 26 percent, lines 977 to 978. -/
def muCacl2C26 : List ℝ :=
  [0.005854, 0.005665, 0.005485, 0.005314, 0.005151, 0.004995, 0.004847,
   0.004705, 0.004569, 0.00444, 0.004316]

/-- Calcium chloride viscosity at 27 percent, lines 979 to 980. -/
def muCacl2C27 : List ℝ :=
  [0.006217, 0.006015, 0.005823, 0.005641, 0.005467, 0.005301, 0.005143,
   0.004992, 0.004848, 0.00471, 0.004579]

/-- Calcium chloride Prandtl number at 25 percent, line 988. -/
def prCacl2C25 : List ℝ :=
  [29.87, 28.87, 27.91, 27.00, 26.13, 25.31, 24.52, 23.76, 23.04, 22.35,
   21.69]

/-- Calcium chloride Prandtl number at 26 percent, line 989. -/
def prCacl2C26 : List ℝ :=
  [31.35, 30.29, 29.28, 28.32, 27.41, 26.54, 25.71, 24.92, 24.16, 23.44,
   22.75]

/-- Calcium chloride Prandtl number at 27 percent, line 990. -/
def prCacl2C27 : List ℝ :=
  [33.02, 31.90, 30.83, 29.82, 28.85, 27.93, 27.05, 26.22, 25.42, 24.66,
   23.93]

/-- Calcium chloride specific heat at 25 percent, lines 995 to 996. -/
def cpCacl2C25 : List ℝ :=
  [2837, 2840, 2844, 2847, 2850, 2853, 2856, 2859, 2863, 2866, 2869]

/-- Calcium chloride specific heat at 26 percent, lines 997 to 998. -/
def cpCacl2C26 : List ℝ :=
  [2806, 2809, 2812, 2815, 2819, 2822, 2825, 2828, 2831, 2834, 2837]

/-- Calcium chloride specific heat at 27 percent, lines 999 to 1000. -/
def cpCacl2C27 : List ℝ :=
  [2777, 2780, 2783, 2786, 2789, 2792, 2794, 2797, 2800, 2803, 2806]

/-- Ethylene glycol conductivity at 25 percent, lines 1010 to 1011. -/
def condEGC25 : List ℝ :=
  [0.4538, 0.4549, 0.456, 0.4571, 0.4582, 0.4593, 0.4604, 0.4615, 0.4626,
   0.4637, 0.4648]

/-- Ethylene glycol conductivity at 26 percent, lines 1012 to 1013. -/
def condEGC26 : List ℝ :=
  [0.4502, 0.4513, 0.4524, 0.4535, 0.4546, 0.4557, 0.4567, 0.4578, 0.4589,
   0.4599, 0.461]

/-- Ethylene glycol conductivity at 27 percent, lines 1014 to 1015. -/
def condEGC27 : List ℝ :=
  [0.4467, 0.4478, 0.4488, 0.4499, 0.4509, 0.452, 0.453, 0.4541, 0.4551,
   0.4562, 0.4572]

/-- Ethylene glycol viscosity at 25 percent, lines 1023 to 1024. -/
def muEGC25 : List ℝ :=
  [0.005531, 0.0053, 0.005082, 0.004876, 0.00468, 0.004494, 0.004318,
   0.004151, 0.003992, 0.003841, 0.003698]

/-- Ethylene glycol viscosity at 26 percent, lines 1025 to 1026. -/
def muEGC26 : List ℝ :=
  [0.005713, 0.005474, 0.005248, 0.005033, 0.00483, 0.004637, 0.004454,
   0.004281, 0.004116, 0.003959, 0.003811]

/-- Ethylene glycol viscosity at 27 percent, lines 1027 to 1028. -/
def muEGC27 : List ℝ :=
  [0.005902, 0.005654, 0.005418, 0.005195, 0.004984, 0.004784, 0.004594,
   0.004414, 0.004244, 0.004081, 0.003927]

/-- Ethylene glycol Prandtl number at 25 percent, line 1036. -/
def prEGC25 : List ℝ :=
  [45.57, 43.59, 41.72, 39.95, 38.28, 36.70, 35.20, 33.77, 32.43, 31.15,
   29.93]

/-- Ethylene glycol Prandtl number at 26 percent, line 1037. -/
def prEGC26 : List ℝ :=
  [47.17, 45.11, 43.17, 41.34, 39.60, 37.95, 36.40, 34.92, 33.52, 32.19,
   30.94]

/-- Ethylene glycol Prandtl number at 27 percent, line 1038. -/
def prEGC27 : List ℝ :=
  [48.82, 46.69, 44.67, 42.76, 40.96, 39.25, 37.64, 36.10, 34.65, 33.27,
   31.97]

/-- Ethylene glycol specific heat at 25 percent, lines 1043 to 1044. -/
def cpEGC25 : List ℝ :=
  [3739, 3741, 3744, 3746, 3748, 3751, 3753, 3756, 3758, 3760, 3763]

/-- Ethylene glycol specific heat at 26 percent, lines 1045 to 1046. -/
def cpEGC26 : List ℝ :=
  [3717, 3719, 3722, 3725, 3727, 3730, 3732, 3735, 3737, 3740, 3742]

/-- Ethylene glycol specific heat at 27 percent, lines 1047 to 1048. -/
def cpEGC27 : List ℝ :=
  [3695, 3698, 3700, 3703, 3706, 3708, 3711, 3714, 3716, 3719, 3722]

/-- The calcium chloride property block (lines 1077 to 1194): the 25 and
26 percent columns by equality, every other concentration falling into
the 27 percent column through the assignment conditions. -/
def cacl2PropsAt (conc T : ℝ) : FluidProps :=
  if conc = 25 then
    ⟨interpProp rinkTempGrid muCacl2C25 T, interpProp rinkTempGrid condCacl2C25 T,
     interpProp rinkTempGrid prCacl2C25 T, interpProp rinkTempGrid cpCacl2C25 T⟩
  else if conc = 26 then
    ⟨interpProp rinkTempGrid muCacl2C26 T, interpProp rinkTempGrid condCacl2C26 T,
     interpProp rinkTempGrid prCacl2C26 T, interpProp rinkTempGrid cpCacl2C26 T⟩
  else
    ⟨interpProp rinkTempGrid muCacl2C27 T, interpProp rinkTempGrid condCacl2C27 T,
     interpProp rinkTempGrid prCacl2C27 T, interpProp rinkTempGrid cpCacl2C27 T⟩

/-- The ethylene glycol property block (lines 1212 to 1346), with the same
dispatch shape as the calcium chloride block. -/
def egPropsAt (conc T : ℝ) : FluidProps :=
  if conc = 25 then
    ⟨interpProp rinkTempGrid muEGC25 T, interpProp rinkTempGrid condEGC25 T,
     interpProp rinkTempGrid prEGC25 T, interpProp rinkTempGrid cpEGC25 T⟩
  else if conc = 26 then
    ⟨interpProp rinkTempGrid muEGC26 T, interpProp rinkTempGrid condEGC26 T,
     interpProp rinkTempGrid prEGC26 T, interpProp rinkTempGrid cpEGC26 T⟩
  else
    ⟨interpProp rinkTempGrid muEGC27 T, interpProp rinkTempGrid condEGC27 T,
     interpProp rinkTempGrid prEGC27 T, interpProp rinkTempGrid cpEGC27 T⟩

/-- CalcIRinkHXEffectTerm (lines 936 to 1348).  When RefrigType is neither
CaCl2 nor EG the source returns its uninitialized local return value; that
read is modelled by the explicit junk argument. -/
def calcIRinkHXEffectTerm (T m L d : ℝ) (refrigType : ℤ) (conc junk : ℝ) : ℝ :=
  if refrigType = CaCl2 then hxEffectTerm (cacl2PropsAt conc T) m L d
  else if refrigType = EG then hxEffectTerm (egPropsAt conc T) m L d
  else junk

/-- All interpolated calcium chloride properties are positive. -/
lemma cacl2PropsAt_pos (conc T : ℝ) :
    0 < (cacl2PropsAt conc T).mu ∧ 0 < (cacl2PropsAt conc T).k ∧
    0 < (cacl2PropsAt conc T).pr ∧ 0 < (cacl2PropsAt conc T).cp := by
  unfold cacl2PropsAt
  split_ifs
  · exact ⟨interpProp_pos _ (getD_pos_of_mem (by norm_num [muCacl2C25])
        (by norm_num [muCacl2C25])) T,
      interpProp_pos _ (getD_pos_of_mem (by norm_num [condCacl2C25])
        (by norm_num [condCacl2C25])) T,
      interpProp_pos _ (getD_pos_of_mem (by norm_num [prCacl2C25])
        (by norm_num [prCacl2C25])) T,
      interpProp_pos _ (getD_pos_of_mem (by norm_num [cpCacl2C25])
        (by norm_num [cpCacl2C25])) T⟩
  · exact ⟨interpProp_pos _ (getD_pos_of_mem (by norm_num [muCacl2C26])
        (by norm_num [muCacl2C26])) T,
      interpProp_pos _ (getD_pos_of_mem (by norm_num [condCacl2C26])
        (by norm_num [condCacl2C26])) T,
      interpProp_pos _ (getD_pos_of_mem (by norm_num [prCacl2C26])
        (by norm_num [prCacl2C26])) T,
      interpProp_pos _ (getD_pos_of_mem (by norm_num [cpCacl2C26])
        (by norm_num [cpCacl2C26])) T⟩
  · exact ⟨interpProp_pos _ (getD_pos_of_mem (by norm_num [muCacl2C27])
        (by norm_num [muCacl2C27])) T,
      interpProp_pos _ (getD_pos_of_mem (by norm_num [condCacl2C27])
        (by norm_num [condCacl2C27])) T,
      interpProp_pos _ (getD_pos_of_mem (by norm_num [prCacl2C27])
        (by norm_num [prCacl2C27])) T,
      interpProp_pos _ (getD_pos_of_mem (by norm_num [cpCacl2C27])
        (by norm_num [cpCacl2C27])) T⟩

/-- The indirect effectiveness term is positive for the calcium chloride
brine with positive flow and geometry (needed because the brine outlet
control evaluates it at its initial guess flow). -/
lemma calcIRinkHXEffectTerm_pos {T m L d conc junk : ℝ} (hm : 0 < m)
    (hL : 0 < L) (hd : 0 < d) :
    0 < calcIRinkHXEffectTerm T m L d CaCl2 conc junk := by
  unfold calcIRinkHXEffectTerm
  rw [if_pos rfl]
  obtain ⟨h1, h2, h3, h4⟩ := cacl2PropsAt_pos conc T
  exact hxEffectTerm_pos h1 h2 h3 h4 hm hL hd

/-! ### Claim C2: the surface temperature control resolver -/

/-- STC (lines 1836 to 1839): the surface temperature control resolver of
the source returns the literal 0.0 for every input. -/
def STC (_SystemType _SysNum : ℤ) : ℝ := 0

/-- Modelled from the spec: the candidate flow the specification states
for surface temperature control, a target heat source term over epsilon
times specific heat times the difference of inlet and source temperature.
No such computation appears in the body of STC. -/
def STCspecFlow (Qtarget eps cp Tin Tsource : ℝ) : ℝ :=
  Qtarget / (eps * cp * (Tin - Tsource))

/-- Claim C2 (amended): STC ignores its arguments and returns 0. -/
theorem stc_returns_zero (a b : ℤ) : STC a b = 0 := rfl

/-- Claim C2 counterexample: at a concrete input whose specified candidate
flow is 1, STC still returns 0, so STC does not compute the specified
formula. -/
theorem stc_stub_counterexample :
    STCspecFlow 1 1 1 2 1 = 1 ∧ STC 1 1 ≠ STCspecFlow 1 1 1 2 1 := by
  constructor
  · norm_num [STCspecFlow]
  · norm_num [STC, STCspecFlow]

/-! ### External state and system records

Env collects everything the module reads from its collaborators: schedule
values, node state, surface data, the linear heat balance coefficient
arrays, the construction CTF coefficients, the prior heat source array,
the glycol property lookup, the zone convection sums and the module level
operating mode.  The junk fields model reads of uninitialized C++ locals
(the PeopleGain read when no people schedule exists, the idle path mdot of
CalcDirectIndoorIceRinkSys, and the floor index when a system has no
floor surface).
-/

structure Env where
  scheduleValue : ℤ → ℝ
  nodeMassFlow : ℕ → ℝ
  nodeTemp : ℕ → ℝ
  surfIsFloor : ℕ → Bool
  surfIsCTF : ℕ → Bool
  surfArea : ℕ → ℝ
  surfConstruction : ℕ → ℕ
  radSysTiHBConstCoef : ℕ → ℝ
  radSysTiHBToutCoef : ℕ → ℝ
  radSysTiHBQsrcCoef : ℕ → ℝ
  radSysToHBConstCoef : ℕ → ℝ
  radSysToHBTinCoef : ℕ → ℝ
  radSysToHBQsrcCoef : ℕ → ℝ
  ctfTsrcConstPart : ℕ → ℝ
  ctfTSourceQ : ℕ → ℝ
  ctfTSourceIn : ℕ → ℝ
  ctfTSourceOut : ℕ → ℝ
  qRadSysSource : ℕ → ℝ
  specificHeatGlycol : ℝ → ℝ
  sumHATsurfZone : ℕ → ℝ
  zeroSourceSumHATsurf : ℕ → ℝ
  operatingMode : ℤ
  junkR : ℝ
  junkN : ℕ

/-- The fields of DirectRefrigSysData (IndoorIceRink.hh lines 59 to 133)
read or written by the functions under verification. -/
structure DRinkSys where
  SchedPtr : ℤ
  ZonePtr : ℕ
  NumOfSurfaces : ℕ
  SurfacePtrArray : ℕ → ℕ
  TubeDiameter : ℝ
  TubeLength : ℝ
  ControlType : ℤ
  RefrigFlowMaxCool : ℝ
  RefrigFlowMinCool : ℝ
  ColdRefrigInNode : ℕ
  ColdRefrigOutNode : ℕ
  ColdSetptSchedPtr : ℤ
  RefrigMassFlowRate : ℝ
  RefOutBOTCCtrlTemp : ℝ
  PeopleSchedPtr : ℤ
  PeopleHeatGain : ℝ
  SpectatorArea : ℝ
  RefrigInletTemp : ℝ

/-- The fields of IndirectRefrigSysData (IndoorIceRink.hh lines 135 to
197) read by the functions under verification. -/
structure IRinkSys where
  ColdRefrigInNode : ℕ
  NumOfSurfaces : ℕ
  SurfacePtrArray : ℕ → ℕ
  TubeDiameter : ℝ
  TubeLength : ℝ
  RefrigFlowMaxCool : ℝ
  RefrigFlowMinCool : ℝ
  RefOutBOTCtrlTemp : ℝ
  Concentration : ℝ
  RefrigType : ℤ
  CondCausedShutDown : Bool

/-- The coefficient Ck derived from the coupling coefficients at surface
index s (lines 1482, 1767 and 1809 of the source). -/
def ckAt (env : Env) (s : ℕ) : ℝ :=
  let Ca := env.radSysTiHBConstCoef s
  let Cb := env.radSysTiHBToutCoef s
  let Cd := env.radSysToHBConstCoef s
  let Ce := env.radSysToHBTinCoef s
  let Cg := env.ctfTsrcConstPart s
  let Ci := env.ctfTSourceIn (env.surfConstruction s)
  let Cj := env.ctfTSourceOut (env.surfConstruction s)
  Cg + ((Ci * (Ca + Cb * Cd) + Cj * (Cd + Ce * Ca)) / (1 - Ce * Cb))

/-- The coefficient Cl derived from the coupling coefficients at surface
index s (lines 1483, 1768 and 1810 of the source). -/
def clAt (env : Env) (s : ℕ) : ℝ :=
  let Cb := env.radSysTiHBToutCoef s
  let Cc := env.radSysTiHBQsrcCoef s
  let Ce := env.radSysToHBTinCoef s
  let Cf := env.radSysToHBQsrcCoef s
  let Ch := env.ctfTSourceQ (env.surfConstruction s)
  let Ci := env.ctfTSourceIn (env.surfConstruction s)
  let Cj := env.ctfTSourceOut (env.surfConstruction s)
  Ch + ((Ci * (Cc + Cb * Cf) + Cj * (Cf + Ce * Cc)) / (1 - Ce * Cb))

/-- The floor search loop that the source repeats (lines 1440 to 1444,
1534 to 1538, 1747 to 1751): scan surfaces 1 to n and keep the pointer of
the last floor surface; when no floor exists the local stays
uninitialized, modelled by the init argument. -/
def lastFloorFrom (env : Env) (ptr : ℕ → ℕ) (n : ℕ) (init : ℕ) : ℕ :=
  (List.range' 1 n).foldl (fun acc j => if env.surfIsFloor (ptr j) then ptr j else acc) init

/-! ### BOTC, the brine outlet temperature control resolver
(lines 1628 to 1834) -/

/-- The refrigerant inlet temperature of the indirect branch (line 1780);
the Temperature parameter of BOTC is not used by this branch. -/
def botcTin (env : Env) (sys : IRinkSys) : ℝ := env.nodeTemp sys.ColdRefrigInNode

/-- The specific heat CpRef from the glycol property lookup (line 1781). -/
def botcCpRef (env : Env) (sys : IRinkSys) : ℝ :=
  env.specificHeatGlycol (botcTin env sys)

/-- The effectiveness Eff of the indirect branch (lines 1783 to 1790):
the effect term at the initial guess flow 0.1 divided by the guess flow
times CpRef. -/
def botcEff (env : Env) (sys : IRinkSys) : ℝ :=
  calcIRinkHXEffectTerm (botcTin env sys) 0.1 sys.TubeLength sys.TubeDiameter
      sys.RefrigType sys.Concentration env.junkR /
    (0.1 * botcCpRef env sys)

/-- PipeArea of the indirect branch (line 1776). -/
def pipeAreaI (sys : IRinkSys) : ℝ := Real.pi * sys.TubeDiameter * sys.TubeLength

/-- QSource at surface index s (line 1812), at the guess flow 0.1. -/
def botcQSource (env : Env) (sys : IRinkSys) (s : ℕ) : ℝ :=
  (botcTin env sys - ckAt env s) /
    (clAt env s / env.surfArea s + 1 / (0.1 * botcCpRef env sys))

/-- The computed outlet temperature RefrigOutTemp at surface index s
(line 1814). -/
def botcOutTemp (env : Env) (sys : IRinkSys) (s : ℕ) : ℝ :=
  botcTin env sys - botcQSource env sys s / (0.1 * botcCpRef env sys)

/-- The required flow of the cooling branch (line 1823).  Note that the
source divides by RefrigOutTemp minus the inlet temperature, the outlet
temperature computed at the guess flow, not by the desired outlet
temperature. -/
def botcCandidate (env : Env) (sys : IRinkSys) (s : ℕ) : ℝ :=
  ((ckAt env s - botcTin env sys) / (botcOutTemp env sys s - botcTin env sys) -
      1 / botcEff env sys) *
    (pipeAreaI sys / (botcCpRef env sys * clAt env s))

/-- One iteration of the surface loop of the indirect branch (lines 1792
to 1830): floor surfaces overwrite the required flow with the minimum
flow when the computed outlet temperature already meets the desired one,
and otherwise with the candidate clamped above by the maximum flow;
other surfaces leave the accumulator unchanged.  The source indexes the
coefficient arrays with the loop counter itself, which this step
reproduces. -/
def botcStep (env : Env) (sys : IRinkSys) (acc : ℝ) (s : ℕ) : ℝ :=
  if env.surfIsFloor (sys.SurfacePtrArray s) then
    if botcOutTemp env sys s ≤ sys.RefOutBOTCtrlTemp then sys.RefrigFlowMinCool
    else if sys.RefrigFlowMaxCool ≤ botcCandidate env sys s then sys.RefrigFlowMaxCool
    else botcCandidate env sys s
  else acc

/-- The indirect branch of BOTC (lines 1775 to 1833): the surface loop
starting from the RefrigMassFlow_Req initial value 0 of line 1660. -/
def BOTCindirect (env : Env) (sys : IRinkSys) : ℝ :=
  (List.range' 1 sys.NumOfSurfaces).foldl (botcStep env sys) 0

/-- The direct branch of BOTC (lines 1741 to 1773): it computes a
RefrigOutTemp from undeclared scratch identifiers but never assigns
RefrigMassFlow_Req, so the function returns the initial value 0 of the
declaration at line 1660. -/
def BOTCdirect (_env : Env) (_sys : DRinkSys) (_T : ℝ) : ℝ := 0

/-- BOTC never writes IRink state, so the condensation shut down flag
after an evaluation equals the flag before it. -/
def botcShutDownAfter (sys : IRinkSys) : Bool := sys.CondCausedShutDown

/-! ### Loop lemmas for the BOTC surface scan -/

lemma botcStep_floor_ignores (env : Env) (sys : IRinkSys) {s : ℕ}
    (hfloor : env.surfIsFloor (sys.SurfacePtrArray s) = true) (a b : ℝ) :
    botcStep env sys a s = botcStep env sys b s := by
  simp [botcStep, hfloor]

lemma foldl_botcStep_no_floor (env : Env) (sys : IRinkSys) :
    ∀ (l : List ℕ) (a : ℝ),
      (∀ s ∈ l, env.surfIsFloor (sys.SurfacePtrArray s) = false) →
      l.foldl (botcStep env sys) a = a := by
  intro l
  induction l with
  | nil => intro a _; rfl
  | cons s l ih =>
      intro a h
      simp only [List.foldl_cons]
      rw [show botcStep env sys a s = a from by
        simp [botcStep, h s (by simp)]]
      exact ih a fun t ht => h t (by simp [ht])

lemma foldl_botcStep_split (env : Env) (sys : IRinkSys) (l1 l2 : List ℕ)
    (k : ℕ) (a : ℝ)
    (hfloor : env.surfIsFloor (sys.SurfacePtrArray k) = true)
    (hnone : ∀ t ∈ l2, env.surfIsFloor (sys.SurfacePtrArray t) = false) :
    (l1 ++ k :: l2).foldl (botcStep env sys) a = botcStep env sys 0 k := by
  rw [List.foldl_append]
  simp only [List.foldl_cons]
  rw [foldl_botcStep_no_floor env sys l2 _ hnone]
  exact botcStep_floor_ignores env sys hfloor _ 0

lemma range'_split {k n : ℕ} (h1 : 1 ≤ k) (h2 : k ≤ n) :
    List.range' 1 n = List.range' 1 (k - 1) ++ k :: List.range' (k + 1) (n - k) := by
  have e1 : (k :: List.range' (k + 1) (n - k) : List ℕ) = List.range' k (n - k + 1) := by
    rw [List.range'_succ]
  rw [e1]
  have happ := List.range'_append 1 (k - 1) (n - k + 1) 1
  have hk : 1 + 1 * (k - 1) = k := by omega
  have hn : n - k + 1 + (k - 1) = n := by omega
  rw [hk, hn] at happ
  exact happ.symm

lemma foldl_botcStep_all_le (env : Env) (sys : IRinkSys) :
    ∀ (l : List ℕ),
      (∀ t ∈ l, env.surfIsFloor (sys.SurfacePtrArray t) = true →
        botcOutTemp env sys t ≤ sys.RefOutBOTCtrlTemp) →
      ∀ a : ℝ,
        l.foldl (botcStep env sys) a =
          if l.any (fun t => env.surfIsFloor (sys.SurfacePtrArray t)) then
            sys.RefrigFlowMinCool
          else a := by
  intro l
  induction l with
  | nil => intro _ a; simp
  | cons s l ih =>
      intro h a
      simp only [List.foldl_cons, List.any_cons]
      by_cases hs : env.surfIsFloor (sys.SurfacePtrArray s) = true
      · have hstep : botcStep env sys a s = sys.RefrigFlowMinCool := by
          simp only [botcStep, if_pos hs]
          rw [if_pos (h s (by simp) hs)]
        rw [hstep, ih (fun t ht htf => h t (by simp [ht]) htf) sys.RefrigFlowMinCool]
        simp [hs]
      · have hsf : env.surfIsFloor (sys.SurfacePtrArray s) = false := by
          simpa using hs
        have hstep : botcStep env sys a s = a := by
          simp [botcStep, hsf]
        rw [hstep, ih (fun t ht htf => h t (by simp [ht]) htf) a]
        simp [hsf]

/-! ### Concrete indirect-system states for claims C3 and C5 -/

/-- A concrete external state: one floor surface with pointer 1, inlet
temperature -5, glycol specific heat 1000, area 100, coupling
coefficients chosen so that Ck is -7 and Cl is 1. -/
def envX3 : Env where
  scheduleValue := fun _ => 1
  nodeMassFlow := fun _ => 1
  nodeTemp := fun _ => -5
  surfIsFloor := fun n => n == 1
  surfIsCTF := fun _ => true
  surfArea := fun _ => 100
  surfConstruction := fun n => n
  radSysTiHBConstCoef := fun _ => 0
  radSysTiHBToutCoef := fun _ => 0
  radSysTiHBQsrcCoef := fun _ => 0
  radSysToHBConstCoef := fun _ => 0
  radSysToHBTinCoef := fun _ => 0
  radSysToHBQsrcCoef := fun _ => 0
  ctfTsrcConstPart := fun _ => -7
  ctfTSourceQ := fun _ => 1
  ctfTSourceIn := fun _ => 0
  ctfTSourceOut := fun _ => 0
  qRadSysSource := fun _ => 0
  specificHeatGlycol := fun _ => 1000
  sumHATsurfZone := fun _ => 0
  zeroSourceSumHATsurf := fun _ => 0
  operatingMode := 0
  junkR := 0
  junkN := 0

/-- A concrete indirect system: a single floor surface, calcium chloride
at 25 percent, tube diameter 1/20, tube length 2, desired outlet
temperature -8, minimum flow 2/5 and maximum flow pi/5000. -/
def sysX3 : IRinkSys where
  ColdRefrigInNode := 4
  NumOfSurfaces := 1
  SurfacePtrArray := fun n => n
  TubeDiameter := 1/20
  TubeLength := 2
  RefrigFlowMaxCool := Real.pi / 5000
  RefrigFlowMinCool := 2/5
  RefOutBOTCtrlTemp := -8
  Concentration := 25
  RefrigType := CaCl2
  CondCausedShutDown := false

lemma botcTin_X3 : botcTin envX3 sysX3 = -5 := rfl

lemma botcCpRef_X3 : botcCpRef envX3 sysX3 = 1000 := rfl

lemma ckAt_X3 : ckAt envX3 1 = -7 := by
  show (-7 : ℝ) + ((0 * (0 + 0 * 0) + 0 * (0 + 0 * 0)) / (1 - 0 * 0)) = -7
  norm_num

lemma clAt_X3 : clAt envX3 1 = 1 := by
  show (1 : ℝ) + ((0 * (0 + 0 * 0) + 0 * (0 + 0 * 0)) / (1 - 0 * 0)) = 1
  norm_num

lemma botcQSource_X3 : botcQSource envX3 sysX3 1 = 100 := by
  unfold botcQSource
  rw [botcTin_X3, ckAt_X3, clAt_X3, botcCpRef_X3,
    show envX3.surfArea 1 = (100 : ℝ) from rfl]
  norm_num

lemma botcOutTemp_X3 : botcOutTemp envX3 sysX3 1 = -6 := by
  unfold botcOutTemp
  rw [botcQSource_X3, botcTin_X3, botcCpRef_X3]
  norm_num

lemma botcEff_X3_pos : 0 < botcEff envX3 sysX3 := by
  have h1 : 0 < calcIRinkHXEffectTerm (botcTin envX3 sysX3) 0.1 sysX3.TubeLength
      sysX3.TubeDiameter sysX3.RefrigType sysX3.Concentration envX3.junkR := by
    have hrt : sysX3.RefrigType = CaCl2 := rfl
    rw [hrt]
    exact calcIRinkHXEffectTerm_pos (by norm_num)
      (by norm_num [sysX3]) (by norm_num [sysX3])
  have h2 : (0 : ℝ) < 0.1 * botcCpRef envX3 sysX3 := by
    rw [botcCpRef_X3]
    norm_num
  exact div_pos h1 h2

lemma botcK_X3 :
    pipeAreaI sysX3 / (botcCpRef envX3 sysX3 * clAt envX3 1) = Real.pi / 10000 := by
  rw [clAt_X3, botcCpRef_X3]
  show Real.pi * sysX3.TubeDiameter * sysX3.TubeLength / (1000 * 1) = Real.pi / 10000
  rw [show sysX3.TubeDiameter = (1/20 : ℝ) from rfl, show sysX3.TubeLength = (2 : ℝ) from rfl]
  ring

lemma botcCandidate_X3_lt :
    botcCandidate envX3 sysX3 1 < sysX3.RefrigFlowMaxCool := by
  have hE : 0 < 1 / botcEff envX3 sysX3 := one_div_pos.mpr botcEff_X3_pos
  unfold botcCandidate
  rw [botcK_X3, ckAt_X3, botcTin_X3, botcOutTemp_X3]
  have hA : ((-7 : ℝ) - -5) / ((-6 : ℝ) - -5) = 2 := by norm_num
  rw [hA, show sysX3.RefrigFlowMaxCool = Real.pi / 5000 from rfl]
  have hlt : 2 - 1 / botcEff envX3 sysX3 < 2 := by linarith
  calc (2 - 1 / botcEff envX3 sysX3) * (Real.pi / 10000)
      < 2 * (Real.pi / 10000) := by
        exact mul_lt_mul_of_pos_right hlt (by positivity)
    _ = Real.pi / 5000 := by ring

lemma BOTCindirect_X3 : BOTCindirect envX3 sysX3 = botcCandidate envX3 sysX3 1 := by
  have hcool : ¬(botcOutTemp envX3 sysX3 1 ≤ sysX3.RefOutBOTCtrlTemp) := by
    rw [botcOutTemp_X3, show sysX3.RefOutBOTCtrlTemp = (-8 : ℝ) from rfl]
    norm_num
  have hmax : ¬(sysX3.RefrigFlowMaxCool ≤ botcCandidate envX3 sysX3 1) :=
    not_le.mpr botcCandidate_X3_lt
  show (List.range' 1 sysX3.NumOfSurfaces).foldl (botcStep envX3 sysX3) 0 =
    botcCandidate envX3 sysX3 1
  rw [show List.range' 1 sysX3.NumOfSurfaces = [1] from rfl]
  simp only [List.foldl_cons, List.foldl_nil]
  unfold botcStep
  rw [if_pos (show envX3.surfIsFloor (sysX3.SurfacePtrArray 1) = true from rfl),
    if_neg hcool, if_neg hmax]

/-! ### Claim C3: the brine outlet temperature control cooling branch -/

/-- Claim C3 (amended): when the last floor surface requires cooling (its
computed outlet temperature exceeds the desired target) and its candidate
stays below the maximum flow, BOTC returns the candidate
((Ck - Tin) / (Tout - Tin) - 1 / eps) * (PipeArea / (cp * Cl)) computed
with the outlet temperature Tout computed at the initial guess flow, not
with the desired target outlet temperature. -/
theorem botc_cooling_flow_formula (env : Env) (sys : IRinkSys) (k : ℕ)
    (hk1 : 1 ≤ k) (hk2 : k ≤ sys.NumOfSurfaces)
    (hfloor : env.surfIsFloor (sys.SurfacePtrArray k) = true)
    (hlast : ∀ j, k < j → j ≤ sys.NumOfSurfaces →
      env.surfIsFloor (sys.SurfacePtrArray j) = false)
    (hcool : sys.RefOutBOTCtrlTemp < botcOutTemp env sys k)
    (hmax : botcCandidate env sys k < sys.RefrigFlowMaxCool) :
    BOTCindirect env sys =
      ((ckAt env k - botcTin env sys) / (botcOutTemp env sys k - botcTin env sys) -
          1 / botcEff env sys) *
        (pipeAreaI sys / (botcCpRef env sys * clAt env k)) := by
  have hnone : ∀ t ∈ List.range' (k + 1) (sys.NumOfSurfaces - k),
      env.surfIsFloor (sys.SurfacePtrArray t) = false := by
    intro t ht
    have hm := List.mem_range'_1.mp ht
    exact hlast t (by omega) (by omega)
  unfold BOTCindirect
  rw [range'_split hk1 hk2, foldl_botcStep_split env sys _ _ k 0 hfloor hnone]
  unfold botcStep
  rw [if_pos hfloor, if_neg (not_le.mpr hcool), if_neg (not_le.mpr hmax)]
  rfl

/-- Claim C3 counterexample: a concrete state in the cooling branch where
the returned flow differs from the formula taken with the desired target
outlet temperature in the denominator, as the claim states it. -/
theorem botc_target_formula_counterexample :
    sysX3.RefOutBOTCtrlTemp < botcOutTemp envX3 sysX3 1 ∧
    botcCandidate envX3 sysX3 1 < sysX3.RefrigFlowMaxCool ∧
    BOTCindirect envX3 sysX3 ≠
      ((ckAt envX3 1 - botcTin envX3 sysX3) /
          (sysX3.RefOutBOTCtrlTemp - botcTin envX3 sysX3) -
        1 / botcEff envX3 sysX3) *
        (pipeAreaI sysX3 / (botcCpRef envX3 sysX3 * clAt envX3 1)) := by
  refine ⟨?_, botcCandidate_X3_lt, ?_⟩
  · rw [botcOutTemp_X3, show sysX3.RefOutBOTCtrlTemp = (-8 : ℝ) from rfl]
    norm_num
  · rw [BOTCindirect_X3]
    unfold botcCandidate
    rw [botcK_X3, ckAt_X3, botcTin_X3, botcOutTemp_X3,
      show sysX3.RefOutBOTCtrlTemp = (-8 : ℝ) from rfl]
    have hA : ((-7 : ℝ) - -5) / ((-6 : ℝ) - -5) = 2 := by norm_num
    have hB : ((-7 : ℝ) - -5) / ((-8 : ℝ) - -5) = 2 / 3 := by norm_num
    rw [hA, hB]
    intro heq
    have hKne : (Real.pi / 10000 : ℝ) ≠ 0 := by positivity
    have hcancel := mul_right_cancel₀ hKne heq
    have : (2 : ℝ) = 2 / 3 := by linarith
    norm_num at this

/-- Claim C3 witness: the amended theorem applied at the concrete state. -/
theorem botc_cooling_flow_formula_witness :
    (envX3.surfIsFloor (sysX3.SurfacePtrArray 1) = true ∧
      sysX3.RefOutBOTCtrlTemp < botcOutTemp envX3 sysX3 1 ∧
      botcCandidate envX3 sysX3 1 < sysX3.RefrigFlowMaxCool) ∧
    BOTCindirect envX3 sysX3 =
      ((ckAt envX3 1 - botcTin envX3 sysX3) /
          (botcOutTemp envX3 sysX3 1 - botcTin envX3 sysX3) -
        1 / botcEff envX3 sysX3) *
        (pipeAreaI sysX3 / (botcCpRef envX3 sysX3 * clAt envX3 1)) :=
  ⟨⟨rfl,
    by rw [botcOutTemp_X3, show sysX3.RefOutBOTCtrlTemp = (-8 : ℝ) from rfl]; norm_num,
    botcCandidate_X3_lt⟩,
   botc_cooling_flow_formula envX3 sysX3 1 le_rfl le_rfl rfl
     (fun j hj1 hj2 => absurd (hj1.trans_le hj2) (lt_irrefl 1))
     (by rw [botcOutTemp_X3, show sysX3.RefOutBOTCtrlTemp = (-8 : ℝ) from rfl]; norm_num)
     botcCandidate_X3_lt⟩

/-! ### Claim C5: the target-already-met branch -/

/-- The state of claim C3 with Ck moved to -4 so that the computed outlet
temperature -4.5 already meets the desired outlet temperature -4. -/
def envX5 : Env := { envX3 with ctfTsrcConstPart := fun _ => -4 }

/-- The system of claim C3 with desired outlet temperature -4. -/
def sysX5 : IRinkSys := { sysX3 with RefOutBOTCtrlTemp := -4 }

lemma botcTin_X5 : botcTin envX5 sysX5 = -5 := rfl

lemma botcCpRef_X5 : botcCpRef envX5 sysX5 = 1000 := rfl

lemma ckAt_X5 : ckAt envX5 1 = -4 := by
  show (-4 : ℝ) + ((0 * (0 + 0 * 0) + 0 * (0 + 0 * 0)) / (1 - 0 * 0)) = -4
  norm_num

lemma clAt_X5 : clAt envX5 1 = 1 := by
  show (1 : ℝ) + ((0 * (0 + 0 * 0) + 0 * (0 + 0 * 0)) / (1 - 0 * 0)) = 1
  norm_num

lemma botcQSource_X5 : botcQSource envX5 sysX5 1 = -50 := by
  unfold botcQSource
  rw [botcTin_X5, ckAt_X5, clAt_X5, botcCpRef_X5,
    show envX5.surfArea 1 = (100 : ℝ) from rfl]
  norm_num

lemma botcOutTemp_X5 : botcOutTemp envX5 sysX5 1 = -9/2 := by
  unfold botcOutTemp
  rw [botcQSource_X5, botcTin_X5, botcCpRef_X5]
  norm_num

/-- Claim C5 (amended): under indirect brine outlet temperature control,
when every floor surface has its computed outlet temperature at or below
the desired target (and a floor surface exists), BOTC returns the
configured minimum cooling flow.  No shut down flag is reported anywhere
in BOTC. -/
theorem target_met_min_flow (env : Env) (sys : IRinkSys)
    (hex : ∃ j, 1 ≤ j ∧ j ≤ sys.NumOfSurfaces ∧
      env.surfIsFloor (sys.SurfacePtrArray j) = true)
    (hall : ∀ j, 1 ≤ j → j ≤ sys.NumOfSurfaces →
      env.surfIsFloor (sys.SurfacePtrArray j) = true →
      botcOutTemp env sys j ≤ sys.RefOutBOTCtrlTemp) :
    BOTCindirect env sys = sys.RefrigFlowMinCool := by
  have hall2 : ∀ t ∈ List.range' 1 sys.NumOfSurfaces,
      env.surfIsFloor (sys.SurfacePtrArray t) = true →
      botcOutTemp env sys t ≤ sys.RefOutBOTCtrlTemp := by
    intro t ht htf
    have hm := List.mem_range'_1.mp ht
    exact hall t (by omega) (by omega) htf
  unfold BOTCindirect
  rw [foldl_botcStep_all_le env sys _ hall2 0]
  obtain ⟨j, h1, h2, hf⟩ := hex
  rw [if_pos]
  exact List.any_eq_true.mpr ⟨j, List.mem_range'_1.mpr ⟨by omega, by omega⟩, hf⟩

/-- Claim C5 counterexample: at a concrete state whose target is already
met, BOTC does return the minimum flow but no true shut down flag is
reported; the condensation flag, the only shut down flag in the data
model, stays false. -/
theorem target_met_counterexample :
    botcOutTemp envX5 sysX5 1 ≤ sysX5.RefOutBOTCtrlTemp ∧
    BOTCindirect envX5 sysX5 = sysX5.RefrigFlowMinCool ∧
    sysX5.RefrigFlowMinCool = 2/5 ∧
    botcShutDownAfter sysX5 = false := by
  have hle : botcOutTemp envX5 sysX5 1 ≤ sysX5.RefOutBOTCtrlTemp := by
    rw [botcOutTemp_X5, show sysX5.RefOutBOTCtrlTemp = (-4 : ℝ) from rfl]
    norm_num
  refine ⟨hle, ?_, rfl, rfl⟩
  show (List.range' 1 sysX5.NumOfSurfaces).foldl (botcStep envX5 sysX5) 0 =
    sysX5.RefrigFlowMinCool
  rw [show List.range' 1 sysX5.NumOfSurfaces = [1] from rfl]
  simp only [List.foldl_cons, List.foldl_nil]
  unfold botcStep
  rw [if_pos (show envX5.surfIsFloor (sysX5.SurfacePtrArray 1) = true from rfl),
    if_pos hle]

/-- Claim C5 witness: the amended theorem applied at the concrete state. -/
theorem target_met_min_flow_witness :
    (envX5.surfIsFloor (sysX5.SurfacePtrArray 1) = true ∧
      botcOutTemp envX5 sysX5 1 ≤ sysX5.RefOutBOTCtrlTemp) ∧
    BOTCindirect envX5 sysX5 = sysX5.RefrigFlowMinCool :=
  ⟨⟨rfl,
    by rw [botcOutTemp_X5, show sysX5.RefOutBOTCtrlTemp = (-4 : ℝ) from rfl]; norm_num⟩,
   target_met_min_flow envX5 sysX5 ⟨1, le_rfl, le_rfl, rfl⟩
     (fun j hj1 hj2 _ => by
        have hj2x : j ≤ 1 := hj2
        have hj : j = 1 := by omega
        subst hj
        rw [botcOutTemp_X5, show sysX5.RefOutBOTCtrlTemp = (-4 : ℝ) from rfl]
        norm_num)⟩

/-! ### CalcDirectIndoorIceRinkComps (lines 1350 to 1509)

The subroutine is split into named intermediates that mirror its locals.
The locals SetPointTemp (read at line 1436) and the condensation control
block of declarations are never used afterwards and are not modelled.
-/

/-- The floor surface index SurfNum2 of the direct system (lines 1440 to
1444). -/
def compsFloor (env : Env) (sys : DRinkSys) : ℕ :=
  lastFloorFrom env sys.SurfacePtrArray sys.NumOfSurfaces env.junkN

/-- EpsMdotCp (line 1464): the call passes DRink TubeLength for both the
TubeLength and the TubeDiameter parameters of CalcDRinkHXEffectTerm. -/
def compsEps (env : Env) (sys : DRinkSys) : ℝ :=
  calcDRinkHXEffectTerm (env.nodeTemp sys.ColdRefrigInNode)
    (env.nodeMassFlow sys.ColdRefrigInNode) sys.TubeLength sys.TubeLength

/-- The heat source value written to QRadSysSource at the floor surface
under the CTF heat balance algorithm (line 1485). -/
def compsQVal (env : Env) (sys : DRinkSys) : ℝ :=
  compsEps env sys * (env.nodeTemp sys.ColdRefrigInNode - ckAt env (compsFloor env sys)) /
    (1 + compsEps env sys * clAt env (compsFloor env sys) / env.surfArea (compsFloor env sys))

/-- The QRadSysSource array after the conditional write of line 1485 (the
write happens only for a CTF surface, lines 1467 to 1486). -/
def compsQ1 (env : Env) (sys : DRinkSys) : ℕ → ℝ :=
  if env.surfIsCTF (compsFloor env sys) then
    Function.update env.qRadSysSource (compsFloor env sys) (compsQVal env sys)
  else env.qRadSysSource

/-- The DRink record after the people gain write (lines 1450 to 1453). -/
def compsSys1 (env : Env) (sys : DRinkSys) : DRinkSys :=
  if 0 < sys.PeopleSchedPtr then
    { sys with PeopleHeatGain := env.scheduleValue sys.PeopleSchedPtr }
  else sys

/-- PeopleGain (line 1452); when no people schedule exists the local is
read uninitialized, modelled by the junk field. -/
def compsPeopleGain (env : Env) (sys : DRinkSys) : ℝ :=
  if 0 < sys.PeopleSchedPtr then
    env.scheduleValue sys.PeopleSchedPtr * sys.SpectatorArea
  else env.junkR

/-- LoadMet (line 1508). -/
def compsLoadMet (env : Env) (sys : DRinkSys) : ℝ :=
  env.sumHATsurfZone sys.ZonePtr - env.zeroSourceSumHATsurf sys.ZonePtr +
    compsPeopleGain env sys

/-- The observable outcome of one evaluation of
CalcDirectIndoorIceRinkComps: the heat source array, the flow rate call
handed to SetComponentFlowRate when one is made, the updated DRink
record, the computed effectiveness term when the flow branch evaluates
one, whether the temperature comparison cutoff fired, and LoadMet. -/
structure CompsResult where
  qRadSysSource : ℕ → ℝ
  flowCall : Option ℝ
  dRink : DRinkSys
  epsMdotCp : Option ℝ
  cutoffFired : Bool
  loadMet : ℝ

/-- The body of CalcDirectIndoorIceRinkComps after the inlet node check
(lines 1435 to 1508).  For non-positive incoming flow (lines 1455 to
1461) only the floor entry of QRadSysSource is zeroed; no flow call and
no effectiveness computation happen.  Otherwise the effectiveness term
and the heat source are computed, and the temperature comparison cutoff
(lines 1488 to 1505) tests the operating mode together with QRadSysSource
at index SurfNum, the loop counter left at NumOfSurfaces plus one, and on
firing commands zero flow and records it, leaving QRadSysSource itself
unchanged. -/
def compsCore (env : Env) (sys : DRinkSys) : CompsResult :=
  if env.nodeMassFlow sys.ColdRefrigInNode ≤ 0 then
    { qRadSysSource := Function.update env.qRadSysSource (compsFloor env sys) 0
      flowCall := none
      dRink := compsSys1 env sys
      epsMdotCp := none
      cutoffFired := false
      loadMet := compsLoadMet env sys }
  else if env.operatingMode = CoolingMode ∧ 0 ≤ compsQ1 env sys (sys.NumOfSurfaces + 1) then
    { qRadSysSource := compsQ1 env sys
      flowCall := some 0
      dRink := { compsSys1 env sys with RefrigMassFlowRate := 0 }
      epsMdotCp := some (compsEps env sys)
      cutoffFired := true
      loadMet := compsLoadMet env sys }
  else
    { qRadSysSource := compsQ1 env sys
      flowCall := none
      dRink := compsSys1 env sys
      epsMdotCp := some (compsEps env sys)
      cutoffFired := false
      loadMet := compsLoadMet env sys }

/-- CalcDirectIndoorIceRinkComps (lines 1350 to 1509): an unset inlet
node handle raises ShowFatalError (lines 1429 to 1433), modelled as the
error result; otherwise the body runs. -/
def CalcDirectIndoorIceRinkComps (env : Env) (sys : DRinkSys) :
    Except Unit CompsResult :=
  if sys.ColdRefrigInNode = 0 then Except.error ()
  else Except.ok (compsCore env sys)

/-- The observable outcome of one evaluation of
CalcDirectIndoorIceRinkSys. -/
structure SysResult where
  compsRan : Bool
  qRadSysSource : ℕ → ℝ
  flowCall : Option ℝ
  dRink : DRinkSys
  cutoffFired : Bool
  loadMet : ℝ

/-- Packaging of a Comps outcome as the outcome of the enclosing Sys
call. -/
def sysResultOfComps (r : CompsResult) : SysResult :=
  { compsRan := true
    qRadSysSource := r.qRadSysSource
    flowCall := r.flowCall
    dRink := r.dRink
    cutoffFired := r.cutoffFired
    loadMet := r.loadMet }

/-- CalcDirectIndoorIceRinkSys (lines 1511 to 1569).  The subroutine sets
OperatingMode to NotOperating (line 1530), so Comps runs against an
environment whose operating mode is NotOperating.  When the availability
schedule is not positive (lines 1540 to 1549) it zeroes the floor heat
source and calls SetComponentFlowRate with the uninitialized local mdot
(modelled by the junk field) without touching the control type.
Otherwise it dispatches on the control type (lines 1554 to 1565): the
brine outlet and surface temperature cases compute a local mdot from BOTC
or STC that is never used afterwards, then invoke Comps; any other
control type raises ShowFatalError, modelled as the error result.  The
source invokes STC with an empty argument list against its two parameter
declaration; since STC ignores its arguments the call is modelled with
placeholder arguments. -/
def CalcDirectIndoorIceRinkSys (env : Env) (sys : DRinkSys) :
    Except Unit SysResult :=
  if env.scheduleValue sys.SchedPtr ≤ 0 then
    Except.ok
      { compsRan := false
        qRadSysSource := Function.update env.qRadSysSource (compsFloor env sys) 0
        flowCall := some env.junkR
        dRink := sys
        cutoffFired := false
        loadMet := env.junkR }
  else if sys.ControlType = BrineOutletTempControl then
    let _mdot := BOTCdirect { env with operatingMode := NotOperating } sys
      sys.RefrigInletTemp
    Except.map sysResultOfComps
      (CalcDirectIndoorIceRinkComps { env with operatingMode := NotOperating } sys)
  else if sys.ControlType = SurfaceTempControl then
    let _mdot := STC DirectSystem 0
    Except.map sysResultOfComps
      (CalcDirectIndoorIceRinkComps { env with operatingMode := NotOperating } sys)
  else Except.error ()

/-- Whether the temperature comparison cutoff fired during an evaluation
of CalcDirectIndoorIceRinkSys (false as well when the evaluation ended in
a fatal error). -/
def sysCutoffObserved (env : Env) (sys : DRinkSys) : Bool :=
  match CalcDirectIndoorIceRinkSys env sys with
  | Except.ok r => r.cutoffFired
  | Except.error _ => false

/-- The write of OperatingMode performed by InitIndoorIceRink (line 732),
the only assignment to OperatingMode in that subroutine; it sets
NotOperating regardless of the prior value. -/
def InitIndoorIceRinkOperatingMode (_prior : ℤ) : ℤ := NotOperating

/-- The cutoff cannot fire when the operating mode is not CoolingMode. -/
lemma compsCore_cutoffFired (env : Env) (sys : DRinkSys)
    (h : env.operatingMode ≠ CoolingMode) :
    (compsCore env sys).cutoffFired = false := by
  by_cases h1 : env.nodeMassFlow sys.ColdRefrigInNode ≤ 0
  · unfold compsCore
    rw [if_pos h1]
  · unfold compsCore
    rw [if_neg h1, if_neg (fun hg => h hg.1)]

/-! ### Concrete direct-system states for claims C1, C4, C6 and C9 -/

/-- A concrete external state for the direct system: operating mode set
to CoolingMode, incoming flow 1 at temperature -12, one CTF floor surface
with pointer 1 and area 100, coupling coefficients making Ck equal -20
and Cl equal 0, and every prior QRadSysSource entry -5. -/
def envC1 : Env where
  scheduleValue := fun _ => 1
  nodeMassFlow := fun _ => 1
  nodeTemp := fun _ => -12
  surfIsFloor := fun n => n == 1
  surfIsCTF := fun _ => true
  surfArea := fun _ => 100
  surfConstruction := fun n => n
  radSysTiHBConstCoef := fun _ => 0
  radSysTiHBToutCoef := fun _ => 0
  radSysTiHBQsrcCoef := fun _ => 0
  radSysToHBConstCoef := fun _ => 0
  radSysToHBTinCoef := fun _ => 0
  radSysToHBQsrcCoef := fun _ => 0
  ctfTsrcConstPart := fun _ => -20
  ctfTSourceQ := fun _ => 0
  ctfTSourceIn := fun _ => 0
  ctfTSourceOut := fun _ => 0
  qRadSysSource := fun _ => -5
  specificHeatGlycol := fun _ => 1000
  sumHATsurfZone := fun _ => 0
  zeroSourceSumHATsurf := fun _ => 0
  operatingMode := 2
  junkR := 0
  junkN := 0

/-- A concrete direct system: one floor surface, tube length 2, tube
diameter 1/2, brine outlet control, inlet node 5, prior commanded flow
rate 3 and no people schedule. -/
def sysC1 : DRinkSys where
  SchedPtr := 1
  ZonePtr := 1
  NumOfSurfaces := 1
  SurfacePtrArray := fun n => n
  TubeDiameter := 1/2
  TubeLength := 2
  ControlType := 2
  RefrigFlowMaxCool := 10
  RefrigFlowMinCool := 0
  ColdRefrigInNode := 5
  ColdRefrigOutNode := 6
  ColdSetptSchedPtr := 1
  RefrigMassFlowRate := 3
  RefOutBOTCCtrlTemp := -8
  PeopleSchedPtr := 0
  PeopleHeatGain := 0
  SpectatorArea := 0
  RefrigInletTemp := -12

lemma compsFloor_C1 : compsFloor envC1 sysC1 = 1 := rfl

lemma ckAt_C1 : ckAt envC1 1 = -20 := by
  show (-20 : ℝ) + ((0 * (0 + 0 * 0) + 0 * (0 + 0 * 0)) / (1 - 0 * 0)) = -20
  norm_num

lemma clAt_C1 : clAt envC1 1 = 0 := by
  show (0 : ℝ) + ((0 * (0 + 0 * 0) + 0 * (0 + 0 * 0)) / (1 - 0 * 0)) = 0
  norm_num

lemma compsEps_C1 : compsEps envC1 sysC1 = calcDRinkHXEffectTerm (-12) 1 2 2 := rfl

lemma compsEps_C1_pos : 0 < compsEps envC1 sysC1 := by
  rw [compsEps_C1]
  exact calcDRinkHXEffectTerm_pos (by norm_num) (by norm_num) (by norm_num)

lemma compsQVal_C1 : compsQVal envC1 sysC1 = compsEps envC1 sysC1 * 8 := by
  unfold compsQVal
  rw [compsFloor_C1, ckAt_C1, clAt_C1,
    show envC1.nodeTemp sysC1.ColdRefrigInNode = (-12 : ℝ) from rfl,
    show envC1.surfArea 1 = (100 : ℝ) from rfl]
  norm_num

lemma compsQ1_C1 :
    compsQ1 envC1 sysC1 =
      Function.update envC1.qRadSysSource 1 (compsQVal envC1 sysC1) := by
  unfold compsQ1
  rw [compsFloor_C1, if_pos (show envC1.surfIsCTF 1 = true from rfl)]

lemma compsC1_flow_pos : ¬(envC1.nodeMassFlow sysC1.ColdRefrigInNode ≤ 0) := by
  rw [show envC1.nodeMassFlow sysC1.ColdRefrigInNode = (1 : ℝ) from rfl]
  norm_num

lemma compsC1_guard_false :
    ¬(envC1.operatingMode = CoolingMode ∧
      0 ≤ compsQ1 envC1 sysC1 (sysC1.NumOfSurfaces + 1)) := by
  rintro ⟨-, hq⟩
  rw [compsQ1_C1,
    Function.update_noteq (show sysC1.NumOfSurfaces + 1 ≠ 1 by decide),
    show envC1.qRadSysSource (sysC1.NumOfSurfaces + 1) = (-5 : ℝ) from rfl] at hq
  linarith

lemma compsCore_C1 :
    compsCore envC1 sysC1 =
      { qRadSysSource := compsQ1 envC1 sysC1
        flowCall := none
        dRink := compsSys1 envC1 sysC1
        epsMdotCp := some (compsEps envC1 sysC1)
        cutoffFired := false
        loadMet := compsLoadMet envC1 sysC1 } := by
  unfold compsCore
  rw [if_neg compsC1_flow_pos, if_neg compsC1_guard_false]

/-! ### Claim C1: the reverse heat flow cutoff -/

/-- Claim C1 evaluated at a failing input: the operating mode is
CoolingMode and the computed heat source term at the floor surface is
strictly positive, yet the evaluation issues no zero flow command and
leaves the positive heat source term in place, because the cutoff guard
reads QRadSysSource at the stale loop index NumOfSurfaces + 1 (here the
prior value -5 of an unrelated entry) and never zeroes the heat source
even when it fires. -/
theorem reverse_cutoff_divergence :
    envC1.operatingMode = CoolingMode ∧
    0 < (compsCore envC1 sysC1).qRadSysSource 1 ∧
    (compsCore envC1 sysC1).flowCall = none ∧
    (compsCore envC1 sysC1).cutoffFired = false := by
  refine ⟨rfl, ?_, by rw [compsCore_C1], by rw [compsCore_C1]⟩
  rw [compsCore_C1]
  show 0 < compsQ1 envC1 sysC1 1
  rw [compsQ1_C1, Function.update_same, compsQVal_C1]
  have := compsEps_C1_pos
  nlinarith

/-! ### Claim C4: the idle path -/

/-- Claim C4 (amended): when the incoming flow is not positive, the floor
entry of the heat source array is zeroed, no effectiveness term is
computed, no flow call is made, and the persisted commanded flow rate is
left unchanged. -/
theorem idle_path_behavior (env : Env) (sys : DRinkSys)
    (hm : env.nodeMassFlow sys.ColdRefrigInNode ≤ 0) :
    (compsCore env sys).qRadSysSource (compsFloor env sys) = 0 ∧
    (compsCore env sys).flowCall = none ∧
    (compsCore env sys).epsMdotCp = none ∧
    (compsCore env sys).dRink.RefrigMassFlowRate = sys.RefrigMassFlowRate := by
  have hcore : compsCore env sys =
      { qRadSysSource := Function.update env.qRadSysSource (compsFloor env sys) 0
        flowCall := none
        dRink := compsSys1 env sys
        epsMdotCp := none
        cutoffFired := false
        loadMet := compsLoadMet env sys } := by
    unfold compsCore
    rw [if_pos hm]
  refine ⟨?_, by rw [hcore], by rw [hcore], ?_⟩
  · rw [hcore]
    exact Function.update_same _ _ _
  · rw [hcore]
    show (compsSys1 env sys).RefrigMassFlowRate = sys.RefrigMassFlowRate
    unfold compsSys1
    split_ifs <;> rfl

/-- The state of claim C1 with the incoming flow forced to -1 and the
operating mode back to NotOperating. -/
def envC4 : Env := { envC1 with nodeMassFlow := fun _ => -1, operatingMode := 0 }

/-- The direct system of claim C1, unchanged (prior commanded flow 3). -/
def sysC4 : DRinkSys := sysC1

/-- Claim C4 counterexample: with incoming flow -1 the heat source is
zeroed and nothing is handed to the HX computation, but no zero flow
request is issued either: no flow call happens and the persisted
commanded flow rate stays 3, so the resulting flow command is not 0. -/
theorem idle_path_counterexample :
    envC4.nodeMassFlow sysC4.ColdRefrigInNode ≤ 0 ∧
    (compsCore envC4 sysC4).qRadSysSource 1 = 0 ∧
    (compsCore envC4 sysC4).flowCall ≠ some 0 ∧
    (compsCore envC4 sysC4).dRink.RefrigMassFlowRate = 3 ∧
    (3 : ℝ) ≠ 0 := by
  have hm : envC4.nodeMassFlow sysC4.ColdRefrigInNode ≤ 0 := by
    rw [show envC4.nodeMassFlow sysC4.ColdRefrigInNode = (-1 : ℝ) from rfl]
    norm_num
  have hcore : compsCore envC4 sysC4 =
      { qRadSysSource := Function.update envC4.qRadSysSource (compsFloor envC4 sysC4) 0
        flowCall := none
        dRink := compsSys1 envC4 sysC4
        epsMdotCp := none
        cutoffFired := false
        loadMet := compsLoadMet envC4 sysC4 } := by
    unfold compsCore
    rw [if_pos hm]
  refine ⟨hm, ?_, by rw [hcore]; simp, ?_, by norm_num⟩
  · rw [hcore]
    show Function.update envC4.qRadSysSource (compsFloor envC4 sysC4) 0 1 = 0
    rw [show compsFloor envC4 sysC4 = 1 from rfl]
    exact Function.update_same _ _ _
  · rw [hcore]
    rfl

/-- Claim C4 witness: the amended theorem applied at the concrete idle
state. -/
theorem idle_path_behavior_witness :
    envC4.nodeMassFlow sysC4.ColdRefrigInNode ≤ 0 ∧
    (compsCore envC4 sysC4).qRadSysSource (compsFloor envC4 sysC4) = 0 ∧
    (compsCore envC4 sysC4).flowCall = none ∧
    (compsCore envC4 sysC4).epsMdotCp = none :=
  have hm : envC4.nodeMassFlow sysC4.ColdRefrigInNode ≤ 0 := by
    rw [show envC4.nodeMassFlow sysC4.ColdRefrigInNode = (-1 : ℝ) from rfl]
    norm_num
  ⟨hm, (idle_path_behavior envC4 sysC4 hm).1, (idle_path_behavior envC4 sysC4 hm).2.1,
    (idle_path_behavior envC4 sysC4 hm).2.2.1⟩

/-! ### Claim C6: the Reynolds number -/

/-- Claim C6 evaluated at a failing input: the Reynolds number of the
effectiveness computation contains no circuit count divisor (at diameter
1 and flow 1 it differs from the claimed formula with circuit count 2),
and the orchestrator call of line 1464 passes the tube length (2) for the
TubeDiameter parameter although the system diameter is 1/2. -/
theorem reynolds_divergence :
    dRinkReD (-12) 1 1 ≠ 4 * 1 / (Real.pi * waterMuAt (-12) * 1 * 2) ∧
    sysC1.TubeDiameter = 1/2 ∧
    sysC1.TubeLength = 2 ∧
    (compsCore envC1 sysC1).epsMdotCp = some (calcDRinkHXEffectTerm (-12) 1 2 2) := by
  refine ⟨?_, rfl, rfl, ?_⟩
  · have hmu : waterMuAt (-12) = 0.0001903 := by
      unfold waterMuAt
      rw [interpProp_below _ (by norm_num)]
      rfl
    unfold dRinkReD hxReD
    rw [show (waterPropsAt (-12)).mu = waterMuAt (-12) from rfl, hmu]
    have hp : (0 : ℝ) < Real.pi * 0.0001903 := by positivity
    intro heq
    rw [div_eq_div_iff (by positivity) (by positivity)] at heq
    nlinarith
  · rw [compsCore_C1, compsEps_C1]

/-! ### Claims C9 and C10: fatal configuration errors and the operating
mode invariant -/

/-- Claim C9 (amended): whenever the availability schedule is positive,
an unset inlet node handle or a control type matching neither recognized
mode makes the evaluation end in the fatal error instead of producing a
result. -/
theorem fatal_config_errors (env : Env) (sys : DRinkSys)
    (hsched : 0 < env.scheduleValue sys.SchedPtr)
    (hbad : sys.ColdRefrigInNode = 0 ∨
      (sys.ControlType ≠ SurfaceTempControl ∧
        sys.ControlType ≠ BrineOutletTempControl)) :
    CalcDirectIndoorIceRinkSys env sys = Except.error () := by
  unfold CalcDirectIndoorIceRinkSys
  rw [if_neg (not_le.mpr hsched)]
  rcases hbad with hnode | ⟨hc1, hc2⟩
  · by_cases hb : sys.ControlType = BrineOutletTempControl
    · rw [if_pos hb]
      unfold CalcDirectIndoorIceRinkComps
      rw [if_pos hnode]
      rfl
    · rw [if_neg hb]
      by_cases hs : sys.ControlType = SurfaceTempControl
      · rw [if_pos hs]
        unfold CalcDirectIndoorIceRinkComps
        rw [if_pos hnode]
        rfl
      · rw [if_neg hs]
  · rw [if_neg hc2, if_neg hc1]

/-- The system with the availability schedule disabled, the inlet node
unset and an unrecognized control type 7. -/
def envX9 : Env := { envC1 with scheduleValue := fun _ => -1 }

/-- The direct system with unset inlet node and control type 7. -/
def sysX9 : DRinkSys := { sysC1 with ColdRefrigInNode := 0, ControlType := 7 }

/-- Claim C9 counterexample: with the availability schedule at -1 an
evaluation with an unset inlet node and an unrecognized control type
completes normally on the idle path instead of halting, so the fatal
errors are not raised on every such evaluation. -/
theorem fatal_config_counterexample :
    sysX9.ColdRefrigInNode = 0 ∧
    sysX9.ControlType ≠ SurfaceTempControl ∧
    sysX9.ControlType ≠ BrineOutletTempControl ∧
    (CalcDirectIndoorIceRinkSys envX9 sysX9).isOk = true := by
  refine ⟨rfl, by decide, by decide, ?_⟩
  unfold CalcDirectIndoorIceRinkSys
  rw [if_pos (show envX9.scheduleValue sysX9.SchedPtr ≤ 0 from by
    rw [show envX9.scheduleValue sysX9.SchedPtr = (-1 : ℝ) from rfl]; norm_num)]
  rfl

/-- The direct system with unset inlet node but a recognized control
type, under a positive availability schedule. -/
def sysW9 : DRinkSys := { sysC1 with ColdRefrigInNode := 0 }

/-- Claim C9 witness: the amended theorem applied with the schedule of
the claim C1 state (value 1) and the unset inlet node. -/
theorem fatal_config_errors_witness :
    (0 < envC1.scheduleValue sysW9.SchedPtr ∧ sysW9.ColdRefrigInNode = 0) ∧
    CalcDirectIndoorIceRinkSys envC1 sysW9 = Except.error () :=
  have hs : 0 < envC1.scheduleValue sysW9.SchedPtr := by
    rw [show envC1.scheduleValue sysW9.SchedPtr = (1 : ℝ) from rfl]
    norm_num
  ⟨⟨hs, rfl⟩, fatal_config_errors envC1 sysW9 hs (Or.inl rfl)⟩

/-- Claim C10: every write of OperatingMode by the module itself (the end
of InitIndoorIceRink and the start of CalcDirectIndoorIceRinkSys) stores
NotOperating, NotOperating differs from CoolingMode, and consequently in
an evaluation driven through CalcDirectIndoorIceRinkSys the temperature
comparison cutoff branch of CalcDirectIndoorIceRinkComps never fires. -/
theorem operating_mode_cutoff_unreachable (env : Env) (sys : DRinkSys) (m : ℤ) :
    sysCutoffObserved env sys = false ∧
    InitIndoorIceRinkOperatingMode m = NotOperating ∧
    NotOperating ≠ CoolingMode := by
  refine ⟨?_, rfl, by decide⟩
  have hmode : ({ env with operatingMode := NotOperating } : Env).operatingMode ≠
      CoolingMode := by
    show NotOperating ≠ CoolingMode
    decide
  unfold sysCutoffObserved CalcDirectIndoorIceRinkSys
  by_cases h1 : env.scheduleValue sys.SchedPtr ≤ 0
  · rw [if_pos h1]
  · rw [if_neg h1]
    by_cases h2 : sys.ControlType = BrineOutletTempControl
    · rw [if_pos h2]
      unfold CalcDirectIndoorIceRinkComps
      by_cases h4 : sys.ColdRefrigInNode = 0
      · rw [if_pos h4]
        rfl
      · rw [if_neg h4]
        exact compsCore_cutoffFired _ sys hmode
    · rw [if_neg h2]
      by_cases h3 : sys.ControlType = SurfaceTempControl
      · rw [if_pos h3]
        unfold CalcDirectIndoorIceRinkComps
        by_cases h4 : sys.ColdRefrigInNode = 0
        · rw [if_pos h4]
          rfl
        · rw [if_neg h4]
          exact compsCore_cutoffFired _ sys hmode
      · rw [if_neg h3]

end IceRink
